import Mathlib

/-!
Shallow embedding of the match-scoring and email-assembly pipeline of the
design-job-finder repository.

The embedded functions are:
* `scoreProject` — the per-project body of `calculateMatchScores`
  (src/unnamed/part_001, lines 196-270);
* `analyzeProjectRequirements` (src/unnamed/part_002, lines 335-386);
* `findBestAchievement` (src/unnamed/part_002, lines 389-409);
* `buildEmail` (src/unnamed/part_002, lines 412-480).

JavaScript semantics that matter here are modelled explicitly:
* `String.prototype.includes` is substring containment (`strIncludes`);
* `.toLowerCase()` is `lowerStr` (ASCII case mapping, which agrees with
  JavaScript on every string occurring in the code and in the claims);
* interpolating `undefined` into a template literal yields the literal
  text "undefined" (`jsOptStr`);
* `x || y` on strings is falsy exactly on `undefined` and `""` (`jsOrStr`,
  `strTruthy`), and `if (n)` on numbers is falsy on 0 (`budgetScore`);
* `String.prototype.replace` with a string pattern replaces only the
  first occurrence (`replaceFirst`).
-/

/-- ASCII lowercasing, the embedding of `.toLowerCase()` for the strings
appearing in this code base (ASCII keywords; CJK characters are fixed
points of both functions). -/
def lowerStr (s : String) : String := ⟨s.data.map Char.toLower⟩

/-- Substring search on character lists: does `hay` contain `needle`? -/
def containsSub (needle : List Char) : List Char → Bool
  | [] => needle.isEmpty
  | c :: t => needle.isPrefixOf (c :: t) || containsSub needle t

/-- Embedding of JavaScript `hay.includes(needle)` on strings. -/
def strIncludes (hay needle : String) : Bool := containsSub needle.data hay.data

/-- Template-literal interpolation of a possibly-undefined string:
JavaScript stringifies `undefined` as the literal text "undefined". -/
def jsOptStr : Option String → String
  | none => "undefined"
  | some s => s

/-- JavaScript truthiness of a possibly-undefined string: falsy exactly on
`undefined` and the empty string. -/
def strTruthy : Option String → Bool
  | none => false
  | some s => !(s == "")

/-- Embedding of `o || fallback` on strings. -/
def jsOrStr (o : Option String) (fallback : String) : String :=
  match o with
  | none => fallback
  | some s => if s = "" then fallback else s

/-- First-occurrence replacement on character lists (JavaScript
`String.prototype.replace` with a string pattern). -/
def replaceFirstAux (pat repl : List Char) : List Char → List Char
  | [] => if pat.isEmpty then repl else []
  | c :: t =>
    if pat.isPrefixOf (c :: t) then repl ++ (c :: t).drop pat.length
    else c :: replaceFirstAux pat repl t

/-- Embedding of JavaScript `s.replace(pat, repl)` (string pattern:
only the first occurrence is replaced). -/
def replaceFirst (s pat repl : String) : String :=
  ⟨replaceFirstAux pat.data repl.data s.data⟩

/-- `profile.expertiseKeywords`: the two keyword tiers. -/
structure ExpertiseKeywords where
  highMatch : List String
  mediumMatch : List String
deriving DecidableEq

/-- A two-tier priority list, the shape of `profile.preferredIndustries`
and `profile.preferredClientTypes`. -/
structure PriorityLists where
  highPriority : List String
  mediumPriority : List String
deriving DecidableEq

/-- One entry of `profile.highlightProjects`, as consumed by
`findBestAchievement` and `buildEmail`. -/
structure Achievement where
  name : String
  result : String
  benchmark : Option String := none
  keywords : Option (List String) := none
deriving DecidableEq

/-- `profile.emailTemplates`: every field is optional in the source. -/
structure EmailTemplates where
  defaultOpener : Option String := none
  analyticsOpener : Option String := none
  b2bOpener : Option String := none
  merchantOpener : Option String := none
  fulltimeCta : Option String := none
  parttimeCta : Option String := none
  remoteCta : Option String := none
  signature : Option String := none
deriving DecidableEq

/-- `profile.workPreference`, as read by `buildEmail`. -/
structure WorkPreference where
  acceptsProjectBased : Bool
  acceptsRemote : Bool
deriving DecidableEq

/-- The fields of a `userProfiles` document that the embedded functions
read. -/
structure UserProfile where
  name : String
  nameEn : String
  role : String
  email : String
  yearsExperience : Int
  coreExpertise : List String
  website : Option String
  expertiseKeywords : ExpertiseKeywords
  preferredIndustries : PriorityLists
  preferredClientTypes : PriorityLists
  highlightProjects : List Achievement
  emailTemplates : Option EmailTemplates
  workPreference : WorkPreference
deriving DecidableEq

/-- A project as validated by the `calculateMatchScores` argument schema:
`title` and `description` are required strings; `budget`, `industry` and
`clientType` are optional. -/
structure MatchProject where
  title : String
  description : String
  budget : Option Int := none
  industry : Option String := none
  clientType : Option String := none
deriving DecidableEq

/-- The output fields attached by the per-project scoring of
`calculateMatchScores`. -/
structure ScoredProject where
  matchScore : Nat
  matchReasons : List String
  priorityScore : Nat
  priorityLabel : String
deriving DecidableEq

/-- The keywords of `kws` that occur (case-insensitively) in the combined
lowercased text; transcribes the `forEach`/`includes` accumulation loops of
`calculateMatchScores` (pushes happen in list order, so filter + map
reproduces both the score increments and the reason order). -/
def matchedKeywords (text : String) (kws : List String) : List String :=
  kws.filter (fun kw => strIncludes text (lowerStr kw))

/-- The preferred industries matching `(project.industry || "")`:
`(project.industry || "").toLowerCase().includes(ind.toLowerCase())`. -/
def industryMatches (industryStr : String) (inds : List String) : List String :=
  inds.filter (fun ind => strIncludes (lowerStr industryStr) (lowerStr ind))

/-- Client-type component of the score: `if (project.clientType)` (falsy
on `undefined` and `""`), then exact membership in the high list (+20)
else the medium list (+10). Returns (score increment, pushed reasons). -/
def clientScore (lists : PriorityLists) (ct : Option String) : Nat × List String :=
  match ct with
  | none => (0, [])
  | some c =>
    if c = "" then (0, [])
    else if lists.highPriority.contains c then (20, ["优先客户类型: " ++ c])
    else if lists.mediumPriority.contains c then (10, ["中等客户类型: " ++ c])
    else (0, [])

/-- Budget component of the score: `if (project.budget)` (falsy on
`undefined` and 0), then +10 for >= 2000 else +5 for >= 1000. -/
def budgetScore (b : Option Int) : Nat × List String :=
  match b with
  | none => (0, [])
  | some x =>
    if x = 0 then (0, [])
    else if x ≥ 2000 then (10, ["预算符合期望 (>= $2000)"])
    else if x ≥ 1000 then (5, ["预算中等 (>= $1000)"])
    else (0, [])

/-- The per-project body of `calculateMatchScores`
(src/unnamed/part_001, lines 196-270): weighted additive score, reasons
pushed in rule order, `matchScore = min(score, 100)`,
`priorityScore = score * 100`, and the A/B/C/D banding at 80/60/40. -/
def scoreProject (profile : UserProfile) (project : MatchProject) : ScoredProject :=
  let combined := lowerStr (project.title ++ " " ++ project.description)
  let hiKw := matchedKeywords combined profile.expertiseKeywords.highMatch
  let medKw := matchedKeywords combined profile.expertiseKeywords.mediumMatch
  let indStr := project.industry.getD ""
  let hiInd := industryMatches indStr profile.preferredIndustries.highPriority
  let medInd := industryMatches indStr profile.preferredIndustries.mediumPriority
  let client := clientScore profile.preferredClientTypes project.clientType
  let budget := budgetScore project.budget
  let score := 10 * hiKw.length + 5 * medKw.length
    + 30 * hiInd.length + 15 * medInd.length + client.1 + budget.1
  let reasons := hiKw.map (fun kw => "匹配关键词: " ++ kw)
    ++ medKw.map (fun kw => "部分匹配: " ++ kw)
    ++ hiInd.map (fun ind => "优先行业: " ++ ind)
    ++ medInd.map (fun ind => "中等行业: " ++ ind)
    ++ client.2 ++ budget.2
  { matchScore := min score 100
    matchReasons := reasons
    priorityScore := score * 100
    priorityLabel :=
      if score ≥ 80 then "A"
      else if score ≥ 60 then "B"
      else if score ≥ 40 then "C"
      else "D" }

/-- A `projects` document as read by the email pipeline: `description`
may be absent there (it is interpolated with JavaScript `undefined`
semantics). Only the fields the embedded functions read are modelled. -/
structure DbProject where
  title : String
  description : Option String := none
deriving DecidableEq

/-- The combined lowercased text
`` `${project.title} ${project.description}`.toLowerCase() `` shared by
`analyzeProjectRequirements` and `findBestAchievement`. -/
def projectText (project : DbProject) : String :=
  lowerStr (project.title ++ " " ++ jsOptStr project.description)

/-- The five trigger conditions of `analyzeProjectRequirements`, in their
fixed source order (1 = analytics/data, 2 = b2b/saas/enterprise,
3 = merchant/business/commerce, 4 = mobile/app, 5 = design-system). -/
def needRule (i : Nat) (text : String) : Bool :=
  if i = 1 then
    strIncludes text "dashboard" || strIncludes text "analytics" || strIncludes text "data"
  else if i = 2 then
    strIncludes text "b2b" || strIncludes text "saas" || strIncludes text "enterprise"
  else if i = 3 then
    strIncludes text "merchant" || strIncludes text "business" || strIncludes text "commerce"
  else if i = 4 then
    strIncludes text "mobile" || strIncludes text "app"
  else if i = 5 then
    strIncludes text "design system" || strIncludes text "component"
  else false

/-- The fixed evaluation order of the trigger rules. -/
def analysisRuleOrder : List Nat := [1, 2, 3, 4, 5]

/-- The pitch angle a rule writes when it matches: rules 4 (mobile) and
5 (design-system) write none. -/
def rulePitch (i : Nat) : Option String :=
  if i = 1 then some "analytics"
  else if i = 2 then some "b2b"
  else if i = 3 then some "merchant"
  else none

/-- Index of the last rule (in the fixed order) matching `text`. -/
def lastMatchingRule (text : String) : Option Nat :=
  analysisRuleOrder.foldl (fun acc i => if needRule i text then some i else acc) none

/-- How many of the five trigger rules match `text`. -/
def matchingRuleCount (text : String) : Nat :=
  (analysisRuleOrder.filter (fun i => needRule i text)).length

/-- The record returned by `analyzeProjectRequirements`. -/
structure RequirementAnalysis where
  pitchAngle : String
  score : Nat
  needs : List String
  painPoints : List String
deriving DecidableEq

/-- `analyzeProjectRequirements` (src/unnamed/part_002, lines 335-386):
sequential mutation of `{pitchAngle, score, needs, painPoints}` is
threaded as states `st0 … st6`; each matching rule appends its
needs/pain-points, adds its increment, and rules 1-3 overwrite the
pitch angle; a final check adds +30 when any high-priority preferred
industry occurs in the text. -/
def analyzeProjectRequirements (project : DbProject) (profile : UserProfile) :
    RequirementAnalysis :=
  let text := projectText project
  let st0 : RequirementAnalysis :=
    { pitchAngle := "default", score := 0, needs := [], painPoints := [] }
  let st1 := if needRule 1 text then
      { pitchAngle := "analytics", score := st0.score + 40,
        needs := st0.needs ++ ["数据分析"],
        painPoints := st0.painPoints ++ ["数据可视化复杂"] }
    else st0
  let st2 := if needRule 2 text then
      { pitchAngle := "b2b", score := st1.score + 35,
        needs := st1.needs ++ ["B2B/企业产品"],
        painPoints := st1.painPoints ++ ["用户体验复杂"] }
    else st1
  let st3 := if needRule 3 text then
      { pitchAngle := "merchant", score := st2.score + 30,
        needs := st2.needs ++ ["商家/商业产品"],
        painPoints := st2.painPoints ++ ["多角色权限管理"] }
    else st2
  let st4 := if needRule 4 text then
      { st3 with
        score := st3.score + 25,
        needs := st3.needs ++ ["移动端设计"],
        painPoints := st3.painPoints ++ ["跨平台一致性"] }
    else st3
  let st5 := if needRule 5 text then
      { st4 with
        score := st4.score + 20,
        needs := st4.needs ++ ["设计系统"],
        painPoints := st4.painPoints ++ ["组件标准化"] }
    else st4
  let st6 := if profile.preferredIndustries.highPriority.any
      (fun i => strIncludes text (lowerStr i)) then
      { st5 with score := st5.score + 30 }
    else st5
  st6

/-- Per-achievement score in `findBestAchievement`: 10 for each keyword of
`achievement.keywords || []` found (case-insensitively) in the text. -/
def achievementScore (text : String) (a : Achievement) : Nat :=
  10 * ((a.keywords.getD []).filter (fun kw => strIncludes text (lowerStr kw))).length

/-- One step of the `findBestAchievement` loop: the running best is
replaced only on a strictly greater score. -/
def bestStep (text : String) (best : Option Achievement × Nat) (a : Achievement) :
    Option Achievement × Nat :=
  if best.2 < achievementScore text a then (some a, achievementScore text a) else best

/-- `findBestAchievement` (src/unnamed/part_002, lines 389-409): fold of
`bestStep` over the achievement list starting from `(null, 0)`. -/
def findBestAchievement (achievements : List Achievement) (project : DbProject) :
    Option Achievement × Nat :=
  achievements.foldl (bestStep (projectText project)) (none, 0)

/-- The record returned by `buildEmail`. -/
structure EmailDraft where
  subjects : List String
  opening : String
  valueProposition : String
  socialProof : String
  cta : String
  full : String
deriving DecidableEq

/-- `buildEmail` (src/unnamed/part_002, lines 412-480). Every template
lookup uses JavaScript truthiness (`jsOrStr` / `strTruthy`), the opener
placeholder is replaced first-occurrence only, and the full text
interpolates `project.description?.substring(0, 200)` with JavaScript
`undefined` stringification (`jsOptStr` on the truncated description). -/
def buildEmail (project : DbProject) (profile : UserProfile)
    (analysis : RequirementAnalysis) (achievementMatch : Option Achievement × Nat) :
    EmailDraft :=
  let templates := profile.emailTemplates.getD {}
  let opening0 := jsOrStr templates.defaultOpener
    ("With " ++ toString profile.yearsExperience
      ++ "+ years in UX design, including " ++ toString (profile.yearsExperience - 4)
      ++ " years at Huawei working on enterprise-scale platforms, I bring deep expertise in complex system design.")
  let opening :=
    if (analysis.pitchAngle == "analytics") && strTruthy templates.analyticsOpener then
      replaceFirst (templates.analyticsOpener.getD "") "\x7bproject_title\x7d" project.title
    else if (analysis.pitchAngle == "b2b") && strTruthy templates.b2bOpener then
      templates.b2bOpener.getD ""
    else if (analysis.pitchAngle == "merchant") && strTruthy templates.merchantOpener then
      templates.merchantOpener.getD ""
    else opening0
  let valueProposition :=
    match achievementMatch.1 with
    | some a =>
      "I specifically worked on " ++ a.name ++ " - " ++ a.result
        ++ " - which directly relates to your need for "
        ++ String.intercalate ", " analysis.needs ++ "."
    | none =>
      "My expertise in " ++ String.intercalate ", " (profile.coreExpertise.take 3)
        ++ " enables me to deliver high-quality solutions for your project."
  let socialProof :=
    match achievementMatch.1 with
    | some a =>
      if strTruthy a.benchmark then
        "This project was benchmarked against " ++ a.benchmark.getD "" ++ "."
      else ""
    | none => ""
  let cta0 := jsOrStr templates.fulltimeCta
    "I\x27d welcome the opportunity to discuss how my experience could contribute to your team."
  let cta :=
    if profile.workPreference.acceptsProjectBased && profile.workPreference.acceptsRemote then
      jsOrStr templates.parttimeCta (jsOrStr templates.remoteCta cta0)
    else cta0
  let signature := jsOrStr templates.signature
    (profile.nameEn ++ " (" ++ profile.name ++ ")\n" ++ profile.role)
  let topNeed :=
    match analysis.needs with
    | [] => "similar projects"
    | n :: _ => if n = "" then "similar projects" else n
  let subjects : List String :=
    [profile.role ++ " interested in: " ++ project.title,
     "Experience with " ++ topNeed ++ " - " ++ project.title,
     profile.nameEn ++ "\x27s application for " ++ project.title]
  let descExcerpt := jsOptStr (project.description.map (fun d => d.take 200))
  let full := "Subject: " ++ subjects.headD "" ++ "\n\n"
    ++ opening ++ "\n\n"
    ++ valueProposition ++ "\n\n"
    ++ socialProof ++ (if socialProof = "" then "" else "\n")
    ++ descExcerpt ++ "...\n\n"
    ++ cta ++ "\n\n"
    ++ signature ++ "\n\n---\nPortfolio: " ++ (profile.website.getD "")
    ++ "\nEmail: " ++ profile.email ++ "\n"
  { subjects := subjects, opening := opening, valueProposition := valueProposition,
    socialProof := socialProof, cta := cta, full := full }

/-- A profile with every list empty and no templates, used as the base of
the concrete inputs below. -/
def baseProfile : UserProfile :=
  { name := "张三"
    nameEn := "Zhang San"
    role := "Product Designer"
    email := "me@example.com"
    yearsExperience := 10
    coreExpertise := []
    website := none
    expertiseKeywords := { highMatch := [], mediumMatch := [] }
    preferredIndustries := { highPriority := [], mediumPriority := [] }
    preferredClientTypes := { highPriority := [], mediumPriority := [] }
    highlightProjects := []
    emailTemplates := none
    workPreference := { acceptsProjectBased := false, acceptsRemote := false } }

/-- The C1 scenario profile: high-tier keyword "dashboard", high-priority
industry "SaaS", high-priority client type "Enterprise", nothing else. -/
def profileC1 : UserProfile :=
  { baseProfile with
    expertiseKeywords := { highMatch := ["dashboard"], mediumMatch := [] },
    preferredIndustries := { highPriority := ["SaaS"], mediumPriority := [] },
    preferredClientTypes := { highPriority := ["Enterprise"], mediumPriority := [] } }

/-- The C1 scenario project. -/
def projectC1 : MatchProject :=
  { title := "SaaS Dashboard Redesign", description := "",
    budget := some 2500, industry := some "SaaS", clientType := some "Enterprise" }

/-- A project whose text "dashboard app" triggers the analytics rule and
the mobile rule, and nothing else. -/
def projectC2 : DbProject := { title := "dashboard", description := some "app" }

/-- Profile with the same keyword in both expertise tiers. -/
def profileC4 : UserProfile :=
  { baseProfile with
    expertiseKeywords := { highMatch := ["dashboard"], mediumMatch := ["dashboard"] } }

/-- A project matching that keyword (and no other signal). -/
def projectC4 : MatchProject := { title := "dashboard", description := "" }

/-- Profile whose high-priority preferred-industry list holds the empty
string. -/
def profileC5 : UserProfile :=
  { baseProfile with
    preferredIndustries := { highPriority := [""], mediumPriority := [] } }

/-- A project with no optional fields at all. -/
def projectC5 : MatchProject := { title := "x", description := "" }

/-- Profile preferring the "fintech" industry. -/
def profileC7 : UserProfile :=
  { baseProfile with
    preferredIndustries := { highPriority := ["fintech"], mediumPriority := [] } }

/-- A project whose text "fintech website" triggers no analyzer rule but
does contain the preferred industry. -/
def projectC7 : DbProject := { title := "fintech", description := some "website" }

/-- A project with an absent description, fed to the email pipeline. -/
def projectC8 : DbProject := { title := "Website Redesign", description := none }

/-- Claim C1, counterexample: on the exact scenario input the scoring
returns matchScore 70 and 4 reasons as claimed, but priorityLabel is not
"A" (the code bands "A" at score >= 80, and 70 lands in the "B" band). -/
theorem c1_counterexample :
    (scoreProject profileC1 projectC1).matchScore = 70 ∧
    (scoreProject profileC1 projectC1).matchReasons.length = 4 ∧
    (scoreProject profileC1 projectC1).priorityLabel ≠ "A" := by decide

/-- Claim C1, amended: on the scenario input `calculateMatchScores`
returns matchScore 70 (hence >= 70 and <= 100), exactly 4 match reasons,
and priorityLabel "B". -/
theorem c1_amended :
    (scoreProject profileC1 projectC1).matchScore = 70 ∧
    70 ≤ (scoreProject profileC1 projectC1).matchScore ∧
    (scoreProject profileC1 projectC1).matchScore ≤ 100 ∧
    (scoreProject profileC1 projectC1).matchReasons.length = 4 ∧
    (scoreProject profileC1 projectC1).priorityLabel = "B" := by decide

/-- Claim C2, counterexample: the text "dashboard app" matches two rules
(analytics and mobile); the last matching rule in the fixed order is
rule 4 (mobile), which writes no pitch angle at all, and the returned
pitch angle "analytics" is not the pitch angle of that last matching
rule. -/
theorem c2_counterexample :
    2 ≤ matchingRuleCount (projectText projectC2) ∧
    lastMatchingRule (projectText projectC2) = some 4 ∧
    rulePitch 4 = none ∧
    (analyzeProjectRequirements projectC2 baseProfile).pitchAngle = "analytics" ∧
    rulePitch 4 ≠ some (analyzeProjectRequirements projectC2 baseProfile).pitchAngle := by
  decide

/-- Claim C4, counterexample: with "dashboard" in both expertise tiers and
a project matching it, the reasons list records two entries mentioning
that keyword (one per tier) — the tiers are not deduplicated and both
increments accrue (matchScore 15 = 10 + 5). -/
theorem c4_counterexample :
    (scoreProject profileC4 projectC4).matchReasons =
      ["匹配关键词: dashboard", "部分匹配: dashboard"] ∧
    ((scoreProject profileC4 projectC4).matchReasons.filter
      (fun r => strIncludes r "dashboard")).length = 2 ∧
    (scoreProject profileC4 projectC4).matchScore = 15 := by decide

/-- Claim C5, counterexample: a project whose optional `industry` field is
absent scores 30 and gains a reason entry when the profile's
high-priority industry list holds the empty string, because the absent
field's empty-string fallback contains the empty industry string. -/
theorem c5_counterexample :
    projectC5.industry = none ∧ projectC5.clientType = none ∧ projectC5.budget = none ∧
    (scoreProject profileC5 projectC5).matchScore = 30 ∧
    (scoreProject profileC5 projectC5).matchReasons = ["优先行业: "] := by decide

/-- Claim C7, counterexample: on text "fintech website" none of the five
trigger rules matches, and the analyzer does return pitchAngle "default"
with empty needs and pain points — but its score is 30, not 0, because
the final industry-preference check still adds its +30 bonus. -/
theorem c7_counterexample :
    (∀ i ∈ analysisRuleOrder, needRule i (projectText projectC7) = false) ∧
    (analyzeProjectRequirements projectC7 profileC7).pitchAngle = "default" ∧
    (analyzeProjectRequirements projectC7 profileC7).needs = [] ∧
    (analyzeProjectRequirements projectC7 profileC7).painPoints = [] ∧
    (analyzeProjectRequirements projectC7 profileC7).score = 30 := by decide

set_option maxRecDepth 4000 in
/-- Claim C8: on a project whose optional description is absent, the full
email text assembled by `buildEmail` contains the literal string
"undefined" — `` `${project.description?.substring(0, 200)}` ``
stringifies the undefined optional chain instead of omitting it. -/
theorem c8_code_bug :
    projectC8.description = none ∧
    strIncludes
      (buildEmail projectC8 baseProfile
        (analyzeProjectRequirements projectC8 baseProfile)
        (findBestAchievement baseProfile.highlightProjects projectC8)).full
      "undefined" = true := by decide

/-- The combined lowercased text scored by `calculateMatchScores`
(`description` is a required string there). -/
def combinedText (project : MatchProject) : String :=
  lowerStr (project.title ++ " " ++ project.description)

/-- The accumulated raw score of `calculateMatchScores` before clamping. -/
def rawScore (profile : UserProfile) (project : MatchProject) : Nat :=
  10 * (matchedKeywords (combinedText project) profile.expertiseKeywords.highMatch).length
    + 5 * (matchedKeywords (combinedText project) profile.expertiseKeywords.mediumMatch).length
    + 30 * (industryMatches (project.industry.getD "")
        profile.preferredIndustries.highPriority).length
    + 15 * (industryMatches (project.industry.getD "")
        profile.preferredIndustries.mediumPriority).length
    + (clientScore profile.preferredClientTypes project.clientType).1
    + (budgetScore project.budget).1

/-- The reasons pushed by `calculateMatchScores`, in push order. -/
def allReasons (profile : UserProfile) (project : MatchProject) : List String :=
  (matchedKeywords (combinedText project) profile.expertiseKeywords.highMatch).map
      (fun kw => "匹配关键词: " ++ kw)
    ++ (matchedKeywords (combinedText project) profile.expertiseKeywords.mediumMatch).map
      (fun kw => "部分匹配: " ++ kw)
    ++ (industryMatches (project.industry.getD "")
        profile.preferredIndustries.highPriority).map (fun ind => "优先行业: " ++ ind)
    ++ (industryMatches (project.industry.getD "")
        profile.preferredIndustries.mediumPriority).map (fun ind => "中等行业: " ++ ind)
    ++ (clientScore profile.preferredClientTypes project.clientType).2
    ++ (budgetScore project.budget).2

lemma scoreProject_matchScore (profile : UserProfile) (project : MatchProject) :
    (scoreProject profile project).matchScore = min (rawScore profile project) 100 := rfl

lemma scoreProject_matchReasons (profile : UserProfile) (project : MatchProject) :
    (scoreProject profile project).matchReasons = allReasons profile project := rfl

/-- The profile obtained by appending one more keyword to the high tier. -/
def profileWithExtraHighKeyword (profile : UserProfile) (kw : String) : UserProfile :=
  { profile with expertiseKeywords :=
      { profile.expertiseKeywords with
        highMatch := profile.expertiseKeywords.highMatch ++ [kw] } }

lemma rawScore_extend (profile : UserProfile) (project : MatchProject) (kw : String) :
    rawScore profile project ≤ rawScore (profileWithExtraHighKeyword profile kw) project := by
  simp only [rawScore, profileWithExtraHighKeyword, matchedKeywords, List.filter_append,
    List.length_append]
  omega

/-- Claim C3: the match score always lies in [0,100], and appending a
keyword to the profile's high-tier expertise list can only raise or
maintain the score of a fixed project. -/
theorem c3_theorem (profile : UserProfile) (project : MatchProject) (kw : String) :
    0 ≤ (scoreProject profile project).matchScore ∧
    (scoreProject profile project).matchScore ≤ 100 ∧
    (scoreProject profile project).matchScore ≤
      (scoreProject (profileWithExtraHighKeyword profile kw) project).matchScore := by
  refine ⟨Nat.zero_le _, ?_, ?_⟩
  · rw [scoreProject_matchScore]
    exact Nat.min_le_right _ _
  · rw [scoreProject_matchScore, scoreProject_matchScore]
    exact min_le_min (rawScore_extend profile project kw) le_rfl

/-- Claim C4, amended: when the same keyword sits in both expertise tiers
and matches the text, both tier rules fire — the reasons list gains one
entry per tier (with distinct tier prefixes) rather than keeping only the
first matching tier. -/
theorem c4_amended (profile : UserProfile) (project : MatchProject) (kw : String)
    (h1 : kw ∈ profile.expertiseKeywords.highMatch)
    (h2 : kw ∈ profile.expertiseKeywords.mediumMatch)
    (h3 : strIncludes (combinedText project) (lowerStr kw) = true) :
    ("匹配关键词: " ++ kw) ∈ (scoreProject profile project).matchReasons ∧
    ("部分匹配: " ++ kw) ∈ (scoreProject profile project).matchReasons := by
  rw [scoreProject_matchReasons]
  unfold allReasons matchedKeywords
  constructor
  · have hA : ("匹配关键词: " ++ kw) ∈ (profile.expertiseKeywords.highMatch.filter
        (fun kw => strIncludes (combinedText project) (lowerStr kw))).map
        (fun kw => "匹配关键词: " ++ kw) :=
      List.mem_map.mpr ⟨kw, List.mem_filter.mpr ⟨h1, h3⟩, rfl⟩
    simp only [List.mem_append]
    tauto
  · have hB : ("部分匹配: " ++ kw) ∈ (profile.expertiseKeywords.mediumMatch.filter
        (fun kw => strIncludes (combinedText project) (lowerStr kw))).map
        (fun kw => "部分匹配: " ++ kw) :=
      List.mem_map.mpr ⟨kw, List.mem_filter.mpr ⟨h2, h3⟩, rfl⟩
    simp only [List.mem_append]
    tauto

/-- Witness for the amended C4 at the concrete two-tier input. -/
theorem c4_witness :
    "dashboard" ∈ profileC4.expertiseKeywords.highMatch ∧
    "dashboard" ∈ profileC4.expertiseKeywords.mediumMatch ∧
    strIncludes (combinedText projectC4) (lowerStr "dashboard") = true ∧
    (("匹配关键词: " ++ "dashboard") ∈ (scoreProject profileC4 projectC4).matchReasons ∧
     ("部分匹配: " ++ "dashboard") ∈ (scoreProject profileC4 projectC4).matchReasons) :=
  ⟨by decide, by decide, by decide,
   c4_amended profileC4 projectC4 "dashboard" (by decide) (by decide) (by decide)⟩

lemma strIncludes_lower_empty (s : String) (h : s ≠ "") :
    strIncludes (lowerStr "") (lowerStr s) = false := by
  obtain ⟨d⟩ := s
  cases d with
  | nil => exact absurd rfl h
  | cons c cs => rfl

lemma industryMatches_empty_str (inds : List String) (h : ∀ i ∈ inds, i ≠ "") :
    industryMatches "" inds = [] := by
  unfold industryMatches
  refine List.filter_eq_nil_iff.mpr ?_
  intro ind hind
  simp [strIncludes_lower_empty ind (h ind hind)]

/-- Claim C5, amended: for a project whose optional `industry`,
`clientType` and `budget` are all absent, the scoring never fails, those
fields contribute zero score and no reason entry, and score and reasons
come from the keyword tiers only — provided no preferred-industry entry
is the empty string (an empty-string preferred industry matches the
absent industry's empty-string fallback and contributes 30). -/
theorem c5_amended (profile : UserProfile) (title desc : String)
    (h1 : ∀ i ∈ profile.preferredIndustries.highPriority, i ≠ "")
    (h2 : ∀ i ∈ profile.preferredIndustries.mediumPriority, i ≠ "") :
    (scoreProject profile
        { title := title, description := desc,
          budget := none, industry := none, clientType := none }).matchScore =
      min (10 * (matchedKeywords (lowerStr (title ++ " " ++ desc))
            profile.expertiseKeywords.highMatch).length
        + 5 * (matchedKeywords (lowerStr (title ++ " " ++ desc))
            profile.expertiseKeywords.mediumMatch).length) 100 ∧
    (scoreProject profile
        { title := title, description := desc,
          budget := none, industry := none, clientType := none }).matchReasons =
      (matchedKeywords (lowerStr (title ++ " " ++ desc))
          profile.expertiseKeywords.highMatch).map (fun kw => "匹配关键词: " ++ kw)
        ++ (matchedKeywords (lowerStr (title ++ " " ++ desc))
          profile.expertiseKeywords.mediumMatch).map (fun kw => "部分匹配: " ++ kw) := by
  have hhi := industryMatches_empty_str _ h1
  have hmed := industryMatches_empty_str _ h2
  constructor
  · rw [scoreProject_matchScore]
    unfold rawScore combinedText
    simp [hhi, hmed, clientScore, budgetScore]
  · rw [scoreProject_matchReasons]
    unfold allReasons combinedText
    simp [hhi, hmed, clientScore, budgetScore]

/-- A well-formed profile for the C5 witness: no empty-string industry. -/
def profileC5w : UserProfile :=
  { baseProfile with
    expertiseKeywords := { highMatch := ["dashboard"], mediumMatch := [] },
    preferredIndustries := { highPriority := ["saas"], mediumPriority := ["web"] } }

/-- Witness for the amended C5 at a concrete input with all optional
project fields absent. -/
theorem c5_witness :
    (∀ i ∈ profileC5w.preferredIndustries.highPriority, i ≠ "") ∧
    (∀ i ∈ profileC5w.preferredIndustries.mediumPriority, i ≠ "") ∧
    ((scoreProject profileC5w
        { title := "Dashboard", description := "",
          budget := none, industry := none, clientType := none }).matchScore =
      min (10 * (matchedKeywords (lowerStr ("Dashboard" ++ " " ++ ""))
            profileC5w.expertiseKeywords.highMatch).length
        + 5 * (matchedKeywords (lowerStr ("Dashboard" ++ " " ++ ""))
            profileC5w.expertiseKeywords.mediumMatch).length) 100 ∧
    (scoreProject profileC5w
        { title := "Dashboard", description := "",
          budget := none, industry := none, clientType := none }).matchReasons =
      (matchedKeywords (lowerStr ("Dashboard" ++ " " ++ ""))
          profileC5w.expertiseKeywords.highMatch).map (fun kw => "匹配关键词: " ++ kw)
        ++ (matchedKeywords (lowerStr ("Dashboard" ++ " " ++ ""))
          profileC5w.expertiseKeywords.mediumMatch).map (fun kw => "部分匹配: " ++ kw)) :=
  ⟨by decide, by decide, c5_amended profileC5w "Dashboard" "" (by decide) (by decide)⟩

lemma analyze_pitchAngle (project : DbProject) (profile : UserProfile) :
    (analyzeProjectRequirements project profile).pitchAngle =
      (if needRule 3 (projectText project) then "merchant"
       else if needRule 2 (projectText project) then "b2b"
       else if needRule 1 (projectText project) then "analytics"
       else "default") := by
  unfold analyzeProjectRequirements
  dsimp only
  split_ifs <;> rfl

/-- Claim C2, amended: the final pitch angle is decided by the LAST
matching rule among the three angle-writing rules (merchant over b2b over
analytics, matching the fixed evaluation order 1,2,3); the mobile and
design-system rules never write an angle, so a text matching only e.g.
analytics + mobile keeps "analytics". In particular a text containing
both "dashboard" and "b2b" (and nothing from the merchant rule) resolves
to "b2b". -/
theorem c2_amended (project : DbProject) (profile : UserProfile) :
    (analyzeProjectRequirements project profile).pitchAngle =
      (if needRule 3 (projectText project) then "merchant"
       else if needRule 2 (projectText project) then "b2b"
       else if needRule 1 (projectText project) then "analytics"
       else "default") :=
  analyze_pitchAngle project profile

/-- Claim C7, amended: when none of the five trigger rules matches, the
analyzer returns pitchAngle "default" with empty needs and pain points,
and its score is 30 when the text contains a high-priority preferred
industry (the final industry bonus still applies) and 0 otherwise. -/
theorem c7_amended (project : DbProject) (profile : UserProfile)
    (h1 : needRule 1 (projectText project) = false)
    (h2 : needRule 2 (projectText project) = false)
    (h3 : needRule 3 (projectText project) = false)
    (h4 : needRule 4 (projectText project) = false)
    (h5 : needRule 5 (projectText project) = false) :
    (analyzeProjectRequirements project profile).pitchAngle = "default" ∧
    (analyzeProjectRequirements project profile).needs = [] ∧
    (analyzeProjectRequirements project profile).painPoints = [] ∧
    (analyzeProjectRequirements project profile).score =
      (if profile.preferredIndustries.highPriority.any
          (fun i => strIncludes (projectText project) (lowerStr i)) then 30 else 0) := by
  unfold analyzeProjectRequirements
  dsimp only
  simp only [h1, h2, h3, h4, h5, Bool.false_eq_true, if_false]
  split_ifs <;> simp

/-- Witness for the amended C7 at the concrete "fintech website" input. -/
theorem c7_witness :
    needRule 1 (projectText projectC7) = false ∧
    needRule 2 (projectText projectC7) = false ∧
    needRule 3 (projectText projectC7) = false ∧
    needRule 4 (projectText projectC7) = false ∧
    needRule 5 (projectText projectC7) = false ∧
    ((analyzeProjectRequirements projectC7 profileC7).pitchAngle = "default" ∧
     (analyzeProjectRequirements projectC7 profileC7).needs = [] ∧
     (analyzeProjectRequirements projectC7 profileC7).painPoints = [] ∧
     (analyzeProjectRequirements projectC7 profileC7).score =
       (if profileC7.preferredIndustries.highPriority.any
           (fun i => strIncludes (projectText projectC7) (lowerStr i)) then 30 else 0)) :=
  ⟨by decide, by decide, by decide, by decide, by decide,
   c7_amended projectC7 profileC7 (by decide) (by decide) (by decide) (by decide) (by decide)⟩

/-- Claim C10: the analyzer's pitch angle is always one of the four
values "default", "analytics", "b2b", "merchant" — the mobile and
design-system rules never contribute an angle of their own. -/
theorem c10_theorem (project : DbProject) (profile : UserProfile) :
    (analyzeProjectRequirements project profile).pitchAngle = "default" ∨
    (analyzeProjectRequirements project profile).pitchAngle = "analytics" ∨
    (analyzeProjectRequirements project profile).pitchAngle = "b2b" ∨
    (analyzeProjectRequirements project profile).pitchAngle = "merchant" := by
  rw [analyze_pitchAngle]
  split_ifs <;> simp

lemma foldBest_cases (text : String) (l : List Achievement) :
    ∀ acc : Option Achievement × Nat,
      (l.foldl (bestStep text) acc = acc ∧
        ∀ b ∈ l, achievementScore text b ≤ acc.2) ∨
      (∃ pre a post, l = pre ++ a :: post ∧
        l.foldl (bestStep text) acc = (some a, achievementScore text a) ∧
        acc.2 < achievementScore text a ∧
        (∀ b ∈ pre, achievementScore text b < achievementScore text a) ∧
        (∀ b ∈ post, achievementScore text b ≤ achievementScore text a)) := by
  induction l with
  | nil =>
    intro acc
    left
    exact ⟨rfl, by intro b hb; simp at hb⟩
  | cons a t ih =>
    intro acc
    rw [List.foldl_cons]
    by_cases h : acc.2 < achievementScore text a
    · have hstep : bestStep text acc a = (some a, achievementScore text a) := by
        simp [bestStep, h]
      rw [hstep]
      rcases ih (some a, achievementScore text a) with
        ⟨heq, hall⟩ | ⟨pre, a', post, hl, heq, hlt, hpre, hpost⟩
      · right
        refine ⟨[], a, t, rfl, ?_, h, ?_, ?_⟩
        · rw [heq]
        · intro b hb; simp at hb
        · intro b hb; exact hall b hb
      · right
        have hlt' : achievementScore text a < achievementScore text a' := hlt
        refine ⟨a :: pre, a', post, by simp [hl], heq, lt_trans h hlt', ?_, hpost⟩
        intro b hb
        rcases List.mem_cons.mp hb with rfl | hb'
        · exact hlt'
        · exact hpre b hb'
    · have hstep : bestStep text acc a = acc := by simp [bestStep, h]
      rw [hstep]
      rcases ih acc with ⟨heq, hall⟩ | ⟨pre, a', post, hl, heq, hlt, hpre, hpost⟩
      · left
        refine ⟨heq, ?_⟩
        intro b hb
        rcases List.mem_cons.mp hb with rfl | hb'
        · exact Nat.le_of_not_lt h
        · exact hall b hb'
      · right
        refine ⟨a :: pre, a', post, by simp [hl], heq, hlt, ?_, hpost⟩
        intro b hb
        rcases List.mem_cons.mp hb with rfl | hb'
        · exact lt_of_le_of_lt (Nat.le_of_not_lt h) hlt
        · exact hpre b hb'

/-- Claim C6: `findBestAchievement` never returns a score below any
achievement's keyword score (each scored as 10 per case-insensitive
keyword hit, which is `achievementScore` by definition); a returned
achievement attains the returned (strictly positive) score and every
achievement listed before it scores strictly less (first-seen wins on
equal scores); and when no achievement has any keyword hit the result is
`(null, 0)`. -/
theorem c6_theorem (achievements : List Achievement) (project : DbProject) :
    (∀ a ∈ achievements,
      achievementScore (projectText project) a ≤ (findBestAchievement achievements project).2) ∧
    (∀ a, (findBestAchievement achievements project).1 = some a →
      achievementScore (projectText project) a = (findBestAchievement achievements project).2 ∧
      0 < (findBestAchievement achievements project).2 ∧
      ∃ pre post, achievements = pre ++ a :: post ∧
        ∀ b ∈ pre, achievementScore (projectText project) b
            < achievementScore (projectText project) a) ∧
    ((∀ a ∈ achievements, achievementScore (projectText project) a = 0) →
      findBestAchievement achievements project = (none, 0)) := by
  rcases foldBest_cases (projectText project) achievements (none, 0) with
    ⟨heq, hall⟩ | ⟨pre, a, post, hl, heq, hlt, hpre, hpost⟩
  · have hr : findBestAchievement achievements project = (none, 0) := heq
    refine ⟨?_, ?_, fun _ => hr⟩
    · intro b hb
      rw [hr]
      exact hall b hb
    · intro a0 ha0
      rw [hr] at ha0
      simp at ha0
  · have hr : findBestAchievement achievements project =
        (some a, achievementScore (projectText project) a) := heq
    have hpos : 0 < achievementScore (projectText project) a := hlt
    refine ⟨?_, ?_, ?_⟩
    · intro b hb
      rw [hr]
      rw [hl] at hb
      rcases List.mem_append.mp hb with hb1 | hb2
      · exact le_of_lt (hpre b hb1)
      · rcases List.mem_cons.mp hb2 with rfl | hb3
        · exact le_refl _
        · exact hpost b hb3
    · intro a0 ha0
      rw [hr] at ha0
      have ha : a = a0 := by simpa using ha0
      subst ha
      rw [hr]
      exact ⟨rfl, hpos, pre, post, hl, hpre⟩
    · intro hz
      exfalso
      have hmem : a ∈ achievements := by
        rw [hl]
        exact List.mem_append.mpr (Or.inr (List.mem_cons_self a post))
      have h0 := hz a hmem
      omega

/-- The C6 end-to-end achievement of the spec scenario. -/
def achX : Achievement :=
  { name := "X", result := "shipped", keywords := some ["merchant", "commerce"] }

/-- The C6 end-to-end project text containing "merchant onboarding". -/
def projectC6 : DbProject := { title := "merchant onboarding", description := some "" }

/-- Witness for C6 at a concrete input: the returned score dominates the
listed achievement's score. -/
theorem c6_witness :
    achX ∈ [achX] ∧
    achievementScore (projectText projectC6) achX ≤ (findBestAchievement [achX] projectC6).2 :=
  ⟨by decide, (c6_theorem [achX] projectC6).1 achX (by decide)⟩

/-- Claim C9: the achievement component of `findBestAchievement` is null
exactly when the returned score is 0 — a non-null achievement always
comes with a strictly positive score. -/
theorem c9_theorem (achievements : List Achievement) (project : DbProject) :
    (findBestAchievement achievements project).1 = none ↔
    (findBestAchievement achievements project).2 = 0 := by
  rcases foldBest_cases (projectText project) achievements (none, 0) with
    ⟨heq, _⟩ | ⟨pre, a, post, _, heq, hlt, _, _⟩
  · have hr : findBestAchievement achievements project = (none, 0) := heq
    rw [hr]
    simp
  · have hr : findBestAchievement achievements project =
        (some a, achievementScore (projectText project) a) := heq
    have hpos : 0 < achievementScore (projectText project) a := hlt
    rw [hr]
    simp
    omega
